import Mathlib

/-!
Shallow embedding of the change-detection-and-risk-classification pipeline
(gisService.js, changeDetectionService.js, mlModelService.js, satelliteService)
together with proofs of the stated behavioural properties.

Modelling conventions:
* JS numbers are embedded as exact rationals (`ℚ`); pixel coordinates that may
  go negative during the flood fill are `ℤ`.
* The turf.js geometry predicates (point-in-polygon, buffering, point-to-line
  distance) are external-library calls; they are abstracted as an oracle record
  `GeoOracle` that is universally quantified over, while all control flow and
  data handling of `checkProtectedZone` is embedded from the source.
* Asynchrony is immaterial (every awaited value is data); exceptions are
  embedded via `Except`. Wall-clock values (`Date.now`, ISO timestamps) and
  image URLs are omitted: no verified property mentions them.
* `Math.random()` is embedded as an explicit stream `ℕ → ℚ` of draws in
  `[0, 1)`, indexed in the exact order the source consumes them.
-/

/-- A policy violation as pushed by `checkProtectedZone`
(gisService.js lines 80-149): `type`, `feature` and `severity` are the JS
string fields, `distance` the optional distance label. -/
structure Violation where
  type : String
  feature : String
  severity : String
  distance : Option String
deriving DecidableEq, Repr

/-- Result record of `calculateRiskLevel` (gisService.js lines 160-175). -/
structure RiskAssessment where
  level : String
  score : ℕ
deriving DecidableEq, Repr

/-- The per-violation score increment of `calculateRiskLevel`
(gisService.js lines 166-170): HIGH adds 10, MEDIUM adds 5, anything else 2. -/
def severityWeight (s : String) : ℕ :=
  if s = "HIGH" then 10 else if s = "MEDIUM" then 5 else 2

/-- `calculateRiskLevel` (gisService.js lines 160-175). -/
def calculateRiskLevel (violations : List Violation) : RiskAssessment :=
  if violations.length = 0 then ⟨"LOW", 0⟩
  else
    let score := violations.foldl (fun acc v => acc + severityWeight v.severity) 0
    if 10 ≤ score then ⟨"HIGH", score⟩
    else if 5 ≤ score then ⟨"MEDIUM", score⟩
    else ⟨"LOW", score⟩

/-- A GeoJSON feature as consumed by `checkProtectedZone`: only the optional
`properties.name` is ever read from it; the geometry itself is interrogated
through the `GeoOracle` below. -/
structure Feature where
  name? : Option String
deriving DecidableEq, Repr

/-- Abstraction of the turf.js geometry primitives used by
`checkProtectedZone` (gisService.js lines 78, 93-94, 140): point-in-polygon,
point-in-50m-buffer-of-line, and point-to-line distance in meters. The point
is `(lat, lng)`. These are external-library calls, so they are parameters of
the embedding; every theorem quantifies over them. -/
structure GeoOracle where
  pointInPolygon : ℚ × ℚ → Feature → Bool
  pointInBuffer50 : ℚ × ℚ → Feature → Bool
  pointToLineDistance : ℚ × ℚ → Feature → ℚ

/-- The GIS layer mapping passed to `checkProtectedZone`. `none` models a
missing/null layer; `some []` an empty feature collection (the source's
`layers.x.features || []` also lands here when `features` is absent). -/
structure GISLayers where
  waterbodies : Option (List Feature)
  waterways : Option (List Feature)
  vulnerableLocalities : Option (List Feature)
  greenCover : Option (List Feature)
  channels : Option (List Feature)

/-- JS `Math.round` on the (nonnegative) distances appearing here:
round half away from zero, i.e. `⌊q + 1/2⌋`. -/
def jsRound (q : ℚ) : ℤ := ⌊q + 1 / 2⌋

/-- Waterbody layer scan (gisService.js lines 76-88): first feature containing
the point wins, producing a single HIGH violation, then the loop breaks. -/
def scanWaterbodies (g : GeoOracle) (p : ℚ × ℚ) (layer : Option (List Feature)) :
    Option Violation :=
  match layer with
  | none => none
  | some fs =>
    (fs.find? (fun f => g.pointInPolygon p f)).map fun f =>
      ⟨"Waterbody Encroachment", f.name?.getD "Unnamed Waterbody", "HIGH", none⟩

/-- Waterway layer scan (gisService.js lines 91-105): first feature whose 50 m
buffer contains the point wins. -/
def scanWaterways (g : GeoOracle) (p : ℚ × ℚ) (layer : Option (List Feature)) :
    Option Violation :=
  match layer with
  | none => none
  | some fs =>
    (fs.find? (fun f => g.pointInBuffer50 p f)).map fun f =>
      ⟨"Waterway Buffer Violation", f.name?.getD "Waterway", "HIGH", some "within 50m buffer"⟩

/-- Vulnerable-locality (flood risk zone) scan (gisService.js lines 108-120). -/
def scanVulnerable (g : GeoOracle) (p : ℚ × ℚ) (layer : Option (List Feature)) :
    Option Violation :=
  match layer with
  | none => none
  | some fs =>
    (fs.find? (fun f => g.pointInPolygon p f)).map fun f =>
      ⟨"Flood Risk Zone", f.name?.getD "Vulnerable Locality", "HIGH", none⟩

/-- Green-belt/park scan (gisService.js lines 123-135). -/
def scanGreenCover (g : GeoOracle) (p : ℚ × ℚ) (layer : Option (List Feature)) :
    Option Violation :=
  match layer with
  | none => none
  | some fs =>
    (fs.find? (fun f => g.pointInPolygon p f)).map fun f =>
      ⟨"Green Belt Encroachment", f.name?.getD "Park/Green Space", "MEDIUM", none⟩

/-- Drainage-channel proximity scan (gisService.js lines 138-152): first
feature at distance under 100 m wins; severity HIGH under 50 m, else MEDIUM;
the rounded distance is recorded as a string label. -/
def scanChannels (g : GeoOracle) (p : ℚ × ℚ) (layer : Option (List Feature)) :
    Option Violation :=
  match layer with
  | none => none
  | some fs =>
    (fs.find? (fun f => decide (g.pointToLineDistance p f < 100))).map fun f =>
      ⟨"Channel Proximity", "Drainage Channel",
        if g.pointToLineDistance p f < 50 then "HIGH" else "MEDIUM",
        some (toString (jsRound (g.pointToLineDistance p f)) ++ "m")⟩

/-- Result record of `checkProtectedZone` (gisService.js lines 66-73). -/
structure ZoneCheckResult where
  inWaterbody : Bool
  inWaterway : Bool
  inVulnerableZone : Bool
  inGreenBelt : Bool
  nearChannel : Bool
  violations : List Violation

/-- `checkProtectedZone` (gisService.js lines 64-155): the five layer scans run
independently in source order, each contributing at most one violation. -/
def checkProtectedZone (g : GeoOracle) (lat lng : ℚ) (layers : GISLayers) :
    ZoneCheckResult :=
  let p := (lat, lng)
  let w := scanWaterbodies g p layers.waterbodies
  let ww := scanWaterways g p layers.waterways
  let vl := scanVulnerable g p layers.vulnerableLocalities
  let gc := scanGreenCover g p layers.greenCover
  let ch := scanChannels g p layers.channels
  { inWaterbody := w.isSome
    inWaterway := ww.isSome
    inVulnerableZone := vl.isSome
    inGreenBelt := gc.isSome
    nearChannel := ch.isSome
    violations := w.toList ++ ww.toList ++ vl.toList ++ gc.toList ++ ch.toList }

/-- Concrete oracle for the C2 witness: every polygon contains every point,
no buffer hit, all channels 100 m away. -/
def oracleWaterbodyHit : GeoOracle :=
  ⟨fun _ _ => true, fun _ _ => false, fun _ _ => 100⟩

/-- Concrete layers for the C2 witness: one unnamed waterbody, all other
layers missing. -/
def layersWaterbodyOnly : GISLayers :=
  ⟨some [⟨none⟩], none, none, none, none⟩

/-- Concrete oracle for the C3 witness: no polygon/buffer hits, every channel
at 40 m. -/
def oracleChannel40 : GeoOracle :=
  ⟨fun _ _ => false, fun _ _ => false, fun _ _ => 40⟩

/-- Concrete layers for the C3 witness: a single drainage channel. -/
def layersChannelOnly : GISLayers :=
  ⟨none, none, none, none, some [⟨none⟩]⟩

/-- One approximate district rectangle of `getDistrict`
(gisService.js lines 180-195). -/
structure DistrictRect where
  latMin : ℚ
  latMax : ℚ
  lngMin : ℚ
  lngMax : ℚ
deriving DecidableEq, Repr

/-- Containment in a district rectangle: all four comparisons of
`getDistrict` are inclusive. -/
def inRect (rc : DistrictRect) (lat lng : ℚ) : Prop :=
  rc.latMin ≤ lat ∧ lat ≤ rc.latMax ∧ rc.lngMin ≤ lng ∧ lng ≤ rc.lngMax

instance (rc : DistrictRect) (lat lng : ℚ) : Decidable (inRect rc lat lng) := by
  unfold inRect
  infer_instance

/-- The five rectangle rules of `getDistrict`, in source order. -/
def districtRules : List (String × DistrictRect) :=
  [("Hyderabad", ⟨17.3, 17.5, 78.4, 78.6⟩),
   ("Medchal", ⟨17.5, 18, 78.4, 78.8⟩),
   ("Sangareddy", ⟨17.6, 18, 77.8, 78.2⟩),
   ("Vikarabad", ⟨17.2, 17.8, 77.5, 78.2⟩),
   ("Rangareddy", ⟨17.2, 17.6, 78.2, 78.8⟩)]

/-- `getDistrict` (gisService.js lines 180-195), as the literal if-chain. -/
def getDistrict (lat lng : ℚ) : String :=
  if 17.3 ≤ lat ∧ lat ≤ 17.5 ∧ 78.4 ≤ lng ∧ lng ≤ 78.6 then "Hyderabad"
  else if 17.5 ≤ lat ∧ lat ≤ 18 ∧ 78.4 ≤ lng ∧ lng ≤ 78.8 then "Medchal"
  else if 17.6 ≤ lat ∧ lat ≤ 18 ∧ 77.8 ≤ lng ∧ lng ≤ 78.2 then "Sangareddy"
  else if 17.2 ≤ lat ∧ lat ≤ 17.8 ∧ 77.5 ≤ lng ∧ lng ≤ 78.2 then "Vikarabad"
  else if 17.2 ≤ lat ∧ lat ≤ 17.6 ∧ 78.2 ≤ lng ∧ lng ≤ 78.8 then "Rangareddy"
  else "Unknown"

/-- First-match-wins evaluation of a rectangle rule list, the spec's reading
of `getDistrict`: the first rule whose rectangle contains the point names the
district, otherwise Unknown. -/
def firstMatchDistrict (rules : List (String × DistrictRect)) (lat lng : ℚ) : String :=
  ((rules.find? fun rl => decide (inRect rl.2 lat lng)).map Prod.fst).getD "Unknown"

/-- `isWithinHyderabadRegion` (satelliteService source, lines 556-568):
inclusive bounds lat 17.0-18.0, lng 77.5-79.0. -/
def isWithinHyderabadRegion (lat lng : ℚ) : Bool :=
  decide (17 ≤ lat ∧ lat ≤ 18 ∧ 77.5 ≤ lng ∧ lng ≤ 79)

/-- The validation part of `analyzeSite` (api service source, lines 211-222).
`parsed` is the result of `parseCoordinates`: `none` models a malformed
coordinate string (which parses to `{lat: null, lng: null}`). A parsed
component equal to 0 is also rejected by the source's JS falsiness check
`!lat || !lng`. -/
def analyzeSiteValidate (parsed : Option (ℚ × ℚ)) : Except String (ℚ × ℚ) :=
  match parsed with
  | none => .error "Invalid coordinates format. Use: lat,lng"
  | some (lat, lng) =>
    if lat = 0 ∨ lng = 0 then .error "Invalid coordinates format. Use: lat,lng"
    else if ¬ isWithinHyderabadRegion lat lng = true then
      .error "Coordinates must be within Hyderabad region"
    else .ok (lat, lng)

/-- `analyzeSite` (api service source, lines 211-270): validation runs first;
only on success does the rest of the function (layer loading, imagery fetch,
change detection, persistence) run, which is abstracted as the `pipeline`
parameter applied to the validated coordinates. -/
def analyzeSite {α : Type} (pipeline : ℚ → ℚ → α) (parsed : Option (ℚ × ℚ)) :
    Except String α :=
  (analyzeSiteValidate parsed).map fun q => pipeline q.1 q.2

/-- Bounding box of a flood-fill region (mlModelService.js line 211), in
integer pixel coordinates: corners (x, y) and (x2, y2). -/
structure RegionBBox where
  x : ℤ
  y : ℤ
  x2 : ℤ
  y2 : ℤ
deriving DecidableEq, Repr

/-- A change region (mlModelService.js lines 208-212). -/
structure Region where
  id : ℕ
  pixels : List (ℤ × ℤ)
  bbox : RegionBBox
deriving DecidableEq, Repr

/-- The `maxPixels` region-size cap of `floodFill` (mlModelService.js 237). -/
def maxPixels : ℕ := 1000

/-- The 0.5 mask threshold. Written `mkRat 1 2` rather than `1 / 2` because
the `Div ℚ` instance is irreducible and would block kernel evaluation of the
region extractor on concrete masks; `maskThreshold_eq` states the value. -/
def maskThreshold : ℚ := mkRat 1 2

/-- `maskData[idx] || 0` (mlModelService.js line 244): out-of-range indices
read as 0 (in-range access is guarded by the length checks of the source). -/
def maskGet (maskData : List ℚ) (idx : ℤ) : ℚ := maskData.getD idx.toNat 0

/-- `floodFill` (mlModelService.js lines 235-262). The JS array stack has its
top at the list head here, so one `push(a, b, c, d)` puts `d` on top. The
`while` loop is embedded with an explicit fuel argument; every iteration
strictly decreases `stack.length + 4 * (maxPixels - region.pixels.length)`
(see `floodFill_fuel_stable`), so the `floodFillFuel` the callers pass always
reaches the loop's own exit. -/
def floodFill (maskData : List ℚ) (width height sr : ℤ) :
    ℕ → List ℤ → List (ℤ × ℤ) → Region → List ℤ × Region
  | 0, visited, _stack, region => (visited, region)
  | fuel + 1, visited, stack, region =>
    match stack with
    | [] => (visited, region)
    | (x, y) :: rest =>
      if maxPixels ≤ region.pixels.length then (visited, region)
      else if x < 0 ∨ width ≤ x ∨ y < 0 ∨ height ≤ y ∨
          (maskData.length : ℤ) ≤ y * width + x ∨ y * width + x ∈ visited ∨
          maskGet maskData (y * width + x) < maskThreshold then
        floodFill maskData width height sr fuel visited rest region
      else
        floodFill maskData width height sr fuel ((y * width + x) :: visited)
          ((x, y - sr) :: (x, y + sr) :: (x - sr, y) :: (x + sr, y) :: rest)
          ⟨region.id, region.pixels ++ [(x, y)],
           ⟨min region.bbox.x x, min region.bbox.y y,
            max region.bbox.x2 x, max region.bbox.y2 y⟩⟩

/-- The `sampleRate` stride of `findChangeRegions` (mlModelService.js 200). -/
def sampleStride : ℕ := 4

/-- Values taken by a JS loop `for (v = 0; v < limit; v += step)`. -/
def stepRange (limit step : ℕ) : List ℕ :=
  (List.range ((limit + step - 1) / step)).map (fun i => i * step)

/-- The row-major sampled scan order of `findChangeRegions`
(mlModelService.js lines 203-204): y outer, x inner, both striding by 4. -/
def samplePoints (width height : ℕ) : List (ℕ × ℕ) :=
  (stepRange height sampleStride).flatMap fun y =>
    (stepRange width sampleStride).map fun x => (x, y)

/-- Fuel passed to `floodFill`: the loop measure starts at
`1 + 4 * (maxPixels - 1) < floodFillFuel`, so the fuel never runs out. -/
def floodFillFuel : ℕ := 4 * maxPixels + 2

/-- The region seeding plus flood fill of one accepted sample
(mlModelService.js lines 208-215): the region starts with the sample pixel
and its one-pixel bounding box — note the fill then pushes that same pixel
again — and the fill runs on the singleton stack. -/
def seedFill (maskData : List ℚ) (width height : ℕ) (visited : List ℤ)
    (rid : ℕ) (x y : ℤ) : List ℤ × Region :=
  floodFill maskData width height (sampleStride : ℤ) floodFillFuel visited [(x, y)]
    ⟨rid, [(x, y)], ⟨x, y, x, y⟩⟩

/-- One iteration of the sampling scan of `findChangeRegions`
(mlModelService.js lines 205-222): on an unvisited above-threshold sample,
seed a region with that pixel and its one-pixel bounding box, flood fill,
and retain the region if it collected at least 10 pixels. The `visited` set
(first state component) persists across samples as in the source. -/
def regionStep (maskData : List ℚ) (width height : ℕ)
    (st : List ℤ × List Region) (xy : ℕ × ℕ) : List ℤ × List Region :=
  let x : ℤ := xy.1
  let y : ℤ := xy.2
  if y * width + x < (maskData.length : ℤ) ∧
      maskThreshold < maskGet maskData (y * width + x) ∧ y * width + x ∉ st.1 then
    let pr := seedFill maskData width height st.1 st.2.length x y
    if 10 ≤ pr.2.pixels.length then (pr.1, st.2 ++ [pr.2]) else (pr.1, st.2)
  else st

/-- `findChangeRegions` (mlModelService.js lines 192-230): scan the sampled
grid in row-major order, flood-filling unvisited above-threshold samples, and
return at most the first 20 retained regions. -/
def findChangeRegions (maskData : List ℚ) (width height : ℕ) : List Region :=
  (((samplePoints width height).foldl (regionStep maskData width height) ([], [])).2).take 20

/-- Membership of a pixel in a region bounding box. -/
def inBB (bb : RegionBBox) (p : ℤ × ℤ) : Prop :=
  bb.x ≤ p.1 ∧ p.1 ≤ bb.x2 ∧ bb.y ≤ p.2 ∧ p.2 ≤ bb.y2

/-- A pixel lying inside the mask area. -/
def pixBounded (width height : ℤ) (p : ℤ × ℤ) : Prop :=
  0 ≤ p.1 ∧ p.1 < width ∧ 0 ≤ p.2 ∧ p.2 < height

/-- Precondition of the flood-fill loop invariant: the region is nonempty and
within the size cap, its pixels lie in its bounding box, and every pixel after
the seed entry is in bounds, marked visited, and listed only once. -/
def ffPre (width height : ℤ) (visited : List ℤ) (region : Region) : Prop :=
  region.pixels ≠ [] ∧ region.pixels.length ≤ maxPixels ∧
  (∀ p ∈ region.pixels, inBB region.bbox p) ∧ region.pixels.tail.Nodup ∧
  (∀ p ∈ region.pixels.tail, pixBounded width height p ∧ (p.2 * width + p.1) ∈ visited)

/-- Postcondition of the flood-fill loop: the id is preserved, pixels are only
appended, and `ffPre` is reestablished for the output state. -/
def ffPost (width height : ℤ) (region : Region) (out : List ℤ × Region) : Prop :=
  out.2.id = region.id ∧
  (∃ added, out.2.pixels = region.pixels ++ added) ∧
  out.2.pixels.length ≤ maxPixels ∧
  (∀ p ∈ out.2.pixels, inBB out.2.bbox p) ∧ out.2.pixels.tail.Nodup ∧
  (∀ p ∈ out.2.pixels.tail, pixBounded width height p ∧ (p.2 * width + p.1) ∈ out.1)

/-- Invariant of one retained region: at least 10 pixels, at most the cap,
all inside the bounding box, and the pixel list is the seed pixel twice
followed by further pixels with no repetition beyond that duplicate. -/
def regionOk (rg : Region) : Prop :=
  10 ≤ rg.pixels.length ∧ rg.pixels.length ≤ maxPixels ∧
  (∀ p ∈ rg.pixels, inBB rg.bbox p) ∧
  ∃ s rest, rg.pixels = s :: s :: rest ∧ (s :: rest).Nodup

/-- Invariant of the accumulated region list: every region is `regionOk` and
the ids are 0, 1, ... in acceptance (scan) order. -/
def regionsInv (rs : List Region) : Prop :=
  (∀ rg ∈ rs, regionOk rg) ∧ rs.map Region.id = List.range rs.length

/-- A detection bounding box in JS pixel coordinates
(mlModelService.js lines 331-336): origin (x, y) plus width and height. -/
structure BBox where
  x : ℚ
  y : ℚ
  width : ℚ
  height : ℚ
deriving DecidableEq, Repr

/-- One building detection produced by the Mask R-CNN postprocessing
(mlModelService.js lines 329-340). `cls` embeds the JS field `class`. -/
structure Building where
  bbox : BBox
  confidence : ℚ
  cls : ℤ
deriving DecidableEq, Repr

/-- `filterBuildingsInChangeRegions` (mlModelService.js lines 351-362): keep
the buildings whose bounding-box center lies in some region's bounding box
(all four comparisons inclusive). -/
def filterBuildingsInChangeRegions (buildings : List Building)
    (changeRegions : List Region) : List Building :=
  buildings.filter fun b =>
    changeRegions.any fun rg =>
      decide ((rg.bbox.x : ℚ) ≤ b.bbox.x + b.bbox.width / 2 ∧
        b.bbox.x + b.bbox.width / 2 ≤ (rg.bbox.x2 : ℚ) ∧
        (rg.bbox.y : ℚ) ≤ b.bbox.y + b.bbox.height / 2 ∧
        b.bbox.y + b.bbox.height / 2 ≤ (rg.bbox.y2 : ℚ))

/-- The region-filter step of `detectBuildingsWithMaskRCNN`
(mlModelService.js lines 288-300): `buildings` is the postprocessed model
output; it is filtered by the change regions only when some were supplied. -/
def detectBuildingsWithMaskRCNN (buildings : List Building)
    (changeRegions : List Region) : List Building :=
  if 0 < changeRegions.length then filterBuildingsInChangeRegions buildings changeRegions
  else buildings

/-- A geographic coordinate pair. -/
structure Coord where
  lat : ℚ
  lng : ℚ
deriving DecidableEq, Repr

/-- A detected change as assembled by `detectChanges`
(changeDetectionService.js lines 69-81 and 134-147). The time-valued fields
(`id` tail, `detectedDate`) and the image URLs are omitted: they carry
wall-clock values and opaque handles no verified property mentions. `bbox` is
`none` for fallback changes, which have no such field. -/
structure Change where
  coordinates : Coord
  area : ℚ
  type : String
  confidence : ℚ
  bbox : Option BBox
  detectionMethod : String
deriving DecidableEq, Repr

/-- The change-mask result of the UNet stage (mlModelService.js lines
173-177): extracted regions plus the raw prediction data used for the
confidence report (`none` embeds a missing/falsy `confidence` field). -/
structure ChangeMask where
  regions : List Region
  confidence : Option (List ℚ)
deriving DecidableEq, Repr

/-- The result record of `detectChanges` (changeDetectionService.js).
`changeRegions`/`buildingsDetected` counters and dates are omitted. -/
structure DetectResult where
  hasChange : Bool
  confidence : ℚ
  changes : List Change
  method : String
deriving DecidableEq, Repr

/-- `pixelToLatLng` (changeDetectionService.js lines 46-54) at the fixed
zoom 14: linear offsets from the query center. -/
def pixelToLatLng (px py centerLat centerLng imageWidth imageHeight : ℚ) : ℚ × ℚ :=
  let latOffset := (py - imageHeight / 2) / (256 * (2 : ℚ) ^ (14 : ℕ)) * 180
  let lngOffset := (px - imageWidth / 2) / (256 * (2 : ℚ) ^ (14 : ℕ)) * 360
  (centerLat + latOffset, centerLng + lngOffset)

/-- The per-building change assembly of `detectChanges`
(changeDetectionService.js lines 43-81): georeference the bbox center against
an assumed 800x800 image, halve the pixel area and clamp it to at least 50,
map the class number to a type label, default a falsy confidence to 0.8. -/
def buildingToChange (coords : Coord) (b : Building) : Change :=
  let center := pixelToLatLng (b.bbox.x + b.bbox.width / 2) (b.bbox.y + b.bbox.height / 2)
    coords.lat coords.lng 800 800
  { coordinates := ⟨center.1, center.2⟩
    area := max (b.bbox.width * b.bbox.height * (1 / 2)) 50
    type := if b.cls = 1 then "Residential Building"
      else if b.cls = 2 then "Commercial Structure" else "Infrastructure"
    confidence := if b.confidence = 0 then 4 / 5 else b.confidence
    bbox := some b.bbox
    detectionMethod := "UNet + Mask R-CNN" }

/-- One synthetic change of `fallbackDetection` (changeDetectionService.js
lines 130-148). `r` is the `Math.random()` stream; change `i` consumes draws
`2 + 6i` (lat offset), `+1` (lng offset), `+2` (area), `+3` (type index),
`+4` (confidence); draw `+5` feeds only the omitted `detectedDate`. The
`getD` default is never read: the type index is 0, 1 or 2 for draws in
`[0, 1)`. -/
def fallbackChange (coords : Coord) (r : ℕ → ℚ) (i : ℕ) : Change :=
  { coordinates := ⟨coords.lat + (r (2 + 6 * i) - 1 / 2) * (1 / 100),
      coords.lng + (r (2 + 6 * i + 1) - 1 / 2) * (1 / 100)⟩
    area := r (2 + 6 * i + 2) * 500 + 100
    type := (["Residential Building", "Commercial Structure", "Infrastructure"].getD
      (⌊r (2 + 6 * i + 3) * 3⌋).toNat "Infrastructure")
    confidence := r (2 + 6 * i + 4) * (3 / 10) + 7 / 10
    bbox := none
    detectionMethod := "Fallback" }

/-- `fallbackDetection` (changeDetectionService.js lines 111-157): draw a
change probability; at 0.6 or below report no change with confidence
`1 - p`; above it, synthesize `floor(draw * 3) + 1` changes near the query
coordinate. -/
def fallbackDetection (coords : Coord) (r : ℕ → ℚ) : DetectResult :=
  let changeProbability := r 0
  if changeProbability > 3 / 5 then
    let numChanges := (⌊r 1 * 3⌋).toNat + 1
    ⟨true, changeProbability, (List.range numChanges).map (fallbackChange coords r),
      "Fallback (No ML models available)"⟩
  else ⟨false, 1 - changeProbability, [], "Fallback (No ML models available)"⟩

/-- The try-block of `detectChanges` (changeDetectionService.js lines 14-97).
`mask?` is the UNet stage output (`none` embeds a falsy `changeMask` or a
missing `regions` field); `detector` is the Mask R-CNN building stage, which
may throw (`Except.error`). A mask without regions short-circuits to the
fixed no-change result with confidence 0.95 before the detector is called. -/
def detectChangesML (mask? : Option ChangeMask)
    (detector : List Region → Except Unit (List Building)) (coords : Coord) :
    Except Unit DetectResult :=
  match mask? with
  | none => .ok ⟨false, 19 / 20, [], "UNet + Mask R-CNN"⟩
  | some mask =>
    if mask.regions.length = 0 then .ok ⟨false, 19 / 20, [], "UNet + Mask R-CNN"⟩
    else
      match detector mask.regions with
      | .error e => .error e
      | .ok buildings =>
        .ok ⟨true,
          (match mask.confidence with
           | none => 3 / 4
           | some l => l.foldl max 0),
          buildings.map (buildingToChange coords), "UNet + Mask R-CNN"⟩

/-- `detectChanges` (changeDetectionService.js lines 13-106): any exception
in the ML path — UNet inference (`unet = .error`), building inference or
georeferencing — is caught and answered by `fallbackDetection`. -/
def detectChanges (unet : Except Unit (Option ChangeMask))
    (detector : List Region → Except Unit (List Building))
    (coords : Coord) (r : ℕ → ℚ) : DetectResult :=
  match unet with
  | .error _ => fallbackDetection coords r
  | .ok mask? =>
    match detectChangesML mask? detector coords with
    | .ok res => res
    | .error _ => fallbackDetection coords r

/-- Concrete one-pixel region used by the C7/C8 witnesses. -/
def regionZero : Region := ⟨0, [(0, 0)], ⟨0, 0, 0, 0⟩⟩

/-- Concrete degenerate building (zero-size box at the origin) used by the
C7/C8 witnesses. -/
def buildingZero : Building := ⟨⟨0, 0, 0, 0⟩, 1, 1⟩

/-- Concrete mask with one region for the C8 witness. -/
def maskOneRegion : ChangeMask := ⟨[regionZero], none⟩

/-- Constant random stream 7/10 for the C4/C5/C8 witnesses. -/
def streamSeven : ℕ → ℚ := fun _ => 7 / 10

theorem foldl_severityWeight (V : List Violation) :
    ∀ n : ℕ, V.foldl (fun acc v => acc + severityWeight v.severity) n =
      n + (V.map (fun v => severityWeight v.severity)).sum := by
  induction V with
  | nil => intro n; simp
  | cons v V ih =>
    intro n
    simp only [List.foldl_cons, List.map_cons, List.sum_cons, ih (n + severityWeight v.severity)]
    omega

/-- C1: for every violation list the risk scorer returns the sum of the
severity weights (HIGH 10, MEDIUM 5, otherwise 2) as score, classifies the
score as HIGH at 10 or above, MEDIUM from 5 to below 10 and LOW below 5,
returns exactly level LOW and score 0 for the empty list, yields HIGH with
score 10 for one HIGH violation alone, and score 7 with level MEDIUM for one
MEDIUM plus one LOW violation. -/
theorem calculateRiskLevel_spec (V : List Violation) :
    (calculateRiskLevel V).score = (V.map (fun v => severityWeight v.severity)).sum ∧
    (calculateRiskLevel V).level =
      (if 10 ≤ (V.map (fun v => severityWeight v.severity)).sum then "HIGH"
       else if 5 ≤ (V.map (fun v => severityWeight v.severity)).sum then "MEDIUM"
       else "LOW") ∧
    calculateRiskLevel [] = ⟨"LOW", 0⟩ ∧
    (∀ v : Violation, v.severity = "HIGH" → calculateRiskLevel [v] = ⟨"HIGH", 10⟩) ∧
    (∀ v w : Violation, v.severity = "MEDIUM" → w.severity = "LOW" →
      calculateRiskLevel [v, w] = ⟨"MEDIUM", 7⟩) := by
  refine ⟨?_, ?_, rfl, ?_, ?_⟩
  · rcases V with - | ⟨v, V⟩
    · simp [calculateRiskLevel]
    · simp only [calculateRiskLevel, foldl_severityWeight]
      split_ifs <;> simp_all
  · rcases V with - | ⟨v, V⟩
    · simp [calculateRiskLevel]
    · simp only [calculateRiskLevel, foldl_severityWeight]
      split_ifs <;> simp_all <;> omega
  · intro v hv
    simp [calculateRiskLevel, severityWeight, hv]
  · intro v w hv hw
    simp [calculateRiskLevel, severityWeight, hv, hw]

/-- Witness for C1 at a concrete violation list. -/
theorem calculateRiskLevel_spec_witness :
    (calculateRiskLevel [⟨"Flood Risk Zone", "f", "HIGH", none⟩]).score = 10 ∧
    calculateRiskLevel [⟨"Green Belt Encroachment", "g", "MEDIUM", none⟩,
      ⟨"x", "y", "LOW", none⟩] = ⟨"MEDIUM", 7⟩ := by
  refine ⟨?_, ?_⟩
  · rw [(calculateRiskLevel_spec [⟨"Flood Risk Zone", "f", "HIGH", none⟩]).1]
    decide
  · exact (calculateRiskLevel_spec []).2.2.2.2 ⟨"Green Belt Encroachment", "g", "MEDIUM", none⟩
      ⟨"x", "y", "LOW", none⟩ rfl rfl

theorem scanWaterbodies_mem_type {g : GeoOracle} {p : ℚ × ℚ} {layer : Option (List Feature)}
    {v : Violation} (h : v ∈ (scanWaterbodies g p layer).toList) :
    v.type = "Waterbody Encroachment" := by
  cases layer with
  | none => simp [scanWaterbodies] at h
  | some fs =>
    simp only [scanWaterbodies, Option.toList, Option.map_eq_some'] at h
    rcases hf : (fs.find? fun f => g.pointInPolygon p f) with - | f <;> rw [hf] at h <;>
      simp_all

theorem scanWaterways_mem_type {g : GeoOracle} {p : ℚ × ℚ} {layer : Option (List Feature)}
    {v : Violation} (h : v ∈ (scanWaterways g p layer).toList) :
    v.type = "Waterway Buffer Violation" := by
  cases layer with
  | none => simp [scanWaterways] at h
  | some fs =>
    simp only [scanWaterways, Option.toList, Option.map_eq_some'] at h
    rcases hf : (fs.find? fun f => g.pointInBuffer50 p f) with - | f <;> rw [hf] at h <;>
      simp_all

theorem scanVulnerable_mem_type {g : GeoOracle} {p : ℚ × ℚ} {layer : Option (List Feature)}
    {v : Violation} (h : v ∈ (scanVulnerable g p layer).toList) :
    v.type = "Flood Risk Zone" := by
  cases layer with
  | none => simp [scanVulnerable] at h
  | some fs =>
    simp only [scanVulnerable, Option.toList, Option.map_eq_some'] at h
    rcases hf : (fs.find? fun f => g.pointInPolygon p f) with - | f <;> rw [hf] at h <;>
      simp_all

theorem scanGreenCover_mem_type {g : GeoOracle} {p : ℚ × ℚ} {layer : Option (List Feature)}
    {v : Violation} (h : v ∈ (scanGreenCover g p layer).toList) :
    v.type = "Green Belt Encroachment" := by
  cases layer with
  | none => simp [scanGreenCover] at h
  | some fs =>
    simp only [scanGreenCover, Option.toList, Option.map_eq_some'] at h
    rcases hf : (fs.find? fun f => g.pointInPolygon p f) with - | f <;> rw [hf] at h <;>
      simp_all

theorem scanChannels_mem_type {g : GeoOracle} {p : ℚ × ℚ} {layer : Option (List Feature)}
    {v : Violation} (h : v ∈ (scanChannels g p layer).toList) :
    v.type = "Channel Proximity" := by
  cases layer with
  | none => simp [scanChannels] at h
  | some fs =>
    simp only [scanChannels, Option.toList, Option.map_eq_some'] at h
    rcases hf : (fs.find? fun f => decide (g.pointToLineDistance p f < 100)) with - | f <;>
      rw [hf] at h <;> simp_all

theorem countP_toList_le_one (o : Option Violation) (q : Violation → Bool) :
    o.toList.countP q ≤ 1 := by
  cases o with
  | none => simp
  | some v => simp [List.countP_cons]; split <;> simp

theorem countP_eq_zero_of_type {o : Option Violation} {ty t : String}
    (h : ∀ v ∈ o.toList, v.type = ty) (hne : ty ≠ t) :
    o.toList.countP (fun v => decide (v.type = t)) = 0 := by
  refine List.countP_eq_zero.mpr fun v hv => ?_
  simp [h v hv, hne]

theorem checkProtectedZone_countP_le_one (g : GeoOracle) (lat lng : ℚ)
    (L : GISLayers) (t : String) :
    (checkProtectedZone g lat lng L).violations.countP
      (fun v => decide (v.type = t)) ≤ 1 := by
  have hW : ∀ v ∈ (scanWaterbodies g (lat, lng) L.waterbodies).toList,
      v.type = "Waterbody Encroachment" := fun _ hv => scanWaterbodies_mem_type hv
  have hWW : ∀ v ∈ (scanWaterways g (lat, lng) L.waterways).toList,
      v.type = "Waterway Buffer Violation" := fun _ hv => scanWaterways_mem_type hv
  have hVL : ∀ v ∈ (scanVulnerable g (lat, lng) L.vulnerableLocalities).toList,
      v.type = "Flood Risk Zone" := fun _ hv => scanVulnerable_mem_type hv
  have hGC : ∀ v ∈ (scanGreenCover g (lat, lng) L.greenCover).toList,
      v.type = "Green Belt Encroachment" := fun _ hv => scanGreenCover_mem_type hv
  have hCH : ∀ v ∈ (scanChannels g (lat, lng) L.channels).toList,
      v.type = "Channel Proximity" := fun _ hv => scanChannels_mem_type hv
  simp only [checkProtectedZone, List.countP_append]
  by_cases h1 : t = "Waterbody Encroachment"
  · rw [countP_eq_zero_of_type hWW (by simp [h1]), countP_eq_zero_of_type hVL (by simp [h1]),
      countP_eq_zero_of_type hGC (by simp [h1]), countP_eq_zero_of_type hCH (by simp [h1])]
    have := countP_toList_le_one (scanWaterbodies g (lat, lng) L.waterbodies)
      (fun v => decide (v.type = t))
    omega
  by_cases h2 : t = "Waterway Buffer Violation"
  · rw [countP_eq_zero_of_type hW (by simp [h2]), countP_eq_zero_of_type hVL (by simp [h2]),
      countP_eq_zero_of_type hGC (by simp [h2]), countP_eq_zero_of_type hCH (by simp [h2])]
    have := countP_toList_le_one (scanWaterways g (lat, lng) L.waterways)
      (fun v => decide (v.type = t))
    omega
  by_cases h3 : t = "Flood Risk Zone"
  · rw [countP_eq_zero_of_type hW (by simp [h3]), countP_eq_zero_of_type hWW (by simp [h3]),
      countP_eq_zero_of_type hGC (by simp [h3]), countP_eq_zero_of_type hCH (by simp [h3])]
    have := countP_toList_le_one (scanVulnerable g (lat, lng) L.vulnerableLocalities)
      (fun v => decide (v.type = t))
    omega
  by_cases h4 : t = "Green Belt Encroachment"
  · rw [countP_eq_zero_of_type hW (by simp [h4]), countP_eq_zero_of_type hWW (by simp [h4]),
      countP_eq_zero_of_type hVL (by simp [h4]), countP_eq_zero_of_type hCH (by simp [h4])]
    have := countP_toList_le_one (scanGreenCover g (lat, lng) L.greenCover)
      (fun v => decide (v.type = t))
    omega
  · rw [countP_eq_zero_of_type hW (by simp; exact fun h => h1 h.symm),
      countP_eq_zero_of_type hWW (by simp; exact fun h => h2 h.symm),
      countP_eq_zero_of_type hVL (by simp; exact fun h => h3 h.symm)]
    have h5 := countP_toList_le_one (scanGreenCover g (lat, lng) L.greenCover)
      (fun v => decide (v.type = t))
    have h6 := countP_toList_le_one (scanChannels g (lat, lng) L.channels)
      (fun v => decide (v.type = t))
    by_cases h4 : t = "Green Belt Encroachment"
    · rw [countP_eq_zero_of_type hCH (by simp [h4])]
      omega
    · rw [countP_eq_zero_of_type hGC (by simp; exact fun h => h4 h.symm)]
      omega

/-- C2: each layer contributes at most one violation per evaluation; a missing
or empty layer contributes none and causes no error; for a point inside some
waterbody polygon that matches no other layer's predicate the result is
exactly one violation, of severity HIGH and type Waterbody Encroachment. -/
theorem checkProtectedZone_waterbody_only
    (g : GeoOracle) (lat lng : ℚ) (layers : GISLayers) (fs : List Feature)
    (hwb : layers.waterbodies = some fs)
    (hmatch : fs.any (fun f => g.pointInPolygon (lat, lng) f) = true)
    (hww : ∀ fs' f, layers.waterways = some fs' → f ∈ fs' →
      g.pointInBuffer50 (lat, lng) f = false)
    (hvl : ∀ fs' f, layers.vulnerableLocalities = some fs' → f ∈ fs' →
      g.pointInPolygon (lat, lng) f = false)
    (hgc : ∀ fs' f, layers.greenCover = some fs' → f ∈ fs' →
      g.pointInPolygon (lat, lng) f = false)
    (hch : ∀ fs' f, layers.channels = some fs' → f ∈ fs' →
      ¬ g.pointToLineDistance (lat, lng) f < 100) :
    (∃ lbl, (checkProtectedZone g lat lng layers).violations =
      [⟨"Waterbody Encroachment", lbl, "HIGH", none⟩]) ∧
    (∀ (L : GISLayers) (t : String),
      (checkProtectedZone g lat lng L).violations.countP
        (fun v => decide (v.type = t)) ≤ 1) ∧
    (∀ layer : Option (List Feature), layer = none ∨ layer = some [] →
      scanWaterbodies g (lat, lng) layer = none ∧
      scanWaterways g (lat, lng) layer = none ∧
      scanVulnerable g (lat, lng) layer = none ∧
      scanGreenCover g (lat, lng) layer = none ∧
      scanChannels g (lat, lng) layer = none) := by
  refine ⟨?_, fun L t => checkProtectedZone_countP_le_one g lat lng L t, ?_⟩
  · rw [List.any_eq_true] at hmatch
    obtain ⟨f0, hf0, hp0⟩ := hmatch
    have hsome : (fs.find? fun f => g.pointInPolygon (lat, lng) f).isSome := by
      rw [List.find?_isSome]
      exact ⟨f0, hf0, hp0⟩
    obtain ⟨fw, hfw⟩ := Option.isSome_iff_exists.mp hsome
    have hWW : scanWaterways g (lat, lng) layers.waterways = none := by
      cases h : layers.waterways with
      | none => simp [scanWaterways]
      | some fs' =>
        simp only [scanWaterways, Option.map_eq_none']
        exact List.find?_eq_none.mpr fun f hf => by simp [hww fs' f h hf]
    have hVL : scanVulnerable g (lat, lng) layers.vulnerableLocalities = none := by
      cases h : layers.vulnerableLocalities with
      | none => simp [scanVulnerable]
      | some fs' =>
        simp only [scanVulnerable, Option.map_eq_none']
        exact List.find?_eq_none.mpr fun f hf => by simp [hvl fs' f h hf]
    have hGC : scanGreenCover g (lat, lng) layers.greenCover = none := by
      cases h : layers.greenCover with
      | none => simp [scanGreenCover]
      | some fs' =>
        simp only [scanGreenCover, Option.map_eq_none']
        exact List.find?_eq_none.mpr fun f hf => by simp [hgc fs' f h hf]
    have hCH : scanChannels g (lat, lng) layers.channels = none := by
      cases h : layers.channels with
      | none => simp [scanChannels]
      | some fs' =>
        simp only [scanChannels, Option.map_eq_none']
        exact List.find?_eq_none.mpr fun f hf => by simp [hch fs' f h hf]
    refine ⟨fw.name?.getD "Unnamed Waterbody", ?_⟩
    simp [checkProtectedZone, scanWaterbodies, hwb, hfw, hWW, hVL, hGC, hCH]
  · rintro layer (rfl | rfl) <;>
      simp [scanWaterbodies, scanWaterways, scanVulnerable, scanGreenCover, scanChannels]

/-- Witness for C2: a point inside one unnamed waterbody with all other
layers missing yields exactly the single HIGH waterbody violation. -/
theorem checkProtectedZone_waterbody_only_witness :
    ∃ lbl, (checkProtectedZone oracleWaterbodyHit 0 0 layersWaterbodyOnly).violations =
      [⟨"Waterbody Encroachment", lbl, "HIGH", none⟩] :=
  (checkProtectedZone_waterbody_only oracleWaterbodyHit 0 0 layersWaterbodyOnly [⟨none⟩]
    rfl (by decide)
    (fun fs' f h1 _ => by simp [layersWaterbodyOnly] at h1)
    (fun fs' f h1 _ => by simp [layersWaterbodyOnly] at h1)
    (fun fs' f h1 _ => by simp [layersWaterbodyOnly] at h1)
    (fun fs' f h1 _ => by simp [layersWaterbodyOnly] at h1)).1

/-- C3: for a point whose distance to the first matching drainage channel is
below 100 m and that matches no other layer, the result is exactly one
Channel Proximity violation, HIGH below 50 m and MEDIUM otherwise, labeled
with the rounded distance; in particular 40 m gives HIGH with label 40m and
70 m gives MEDIUM with label 70m. -/
theorem checkProtectedZone_channel_proximity
    (g : GeoOracle) (lat lng : ℚ) (layers : GISLayers) (fs : List Feature) (f : Feature)
    (hch : layers.channels = some fs)
    (hfind : fs.find? (fun f' => decide (g.pointToLineDistance (lat, lng) f' < 100)) = some f)
    (hwb : ∀ fs' f', layers.waterbodies = some fs' → f' ∈ fs' →
      g.pointInPolygon (lat, lng) f' = false)
    (hww : ∀ fs' f', layers.waterways = some fs' → f' ∈ fs' →
      g.pointInBuffer50 (lat, lng) f' = false)
    (hvl : ∀ fs' f', layers.vulnerableLocalities = some fs' → f' ∈ fs' →
      g.pointInPolygon (lat, lng) f' = false)
    (hgc : ∀ fs' f', layers.greenCover = some fs' → f' ∈ fs' →
      g.pointInPolygon (lat, lng) f' = false) :
    (checkProtectedZone g lat lng layers).violations =
      [⟨"Channel Proximity", "Drainage Channel",
        if g.pointToLineDistance (lat, lng) f < 50 then "HIGH" else "MEDIUM",
        some (toString (jsRound (g.pointToLineDistance (lat, lng) f)) ++ "m")⟩] ∧
    (g.pointToLineDistance (lat, lng) f = 40 →
      (checkProtectedZone g lat lng layers).violations =
        [⟨"Channel Proximity", "Drainage Channel", "HIGH", some "40m"⟩]) ∧
    (g.pointToLineDistance (lat, lng) f = 70 →
      (checkProtectedZone g lat lng layers).violations =
        [⟨"Channel Proximity", "Drainage Channel", "MEDIUM", some "70m"⟩]) := by
  have hW : scanWaterbodies g (lat, lng) layers.waterbodies = none := by
    cases h : layers.waterbodies with
    | none => simp [scanWaterbodies]
    | some fs' =>
      simp only [scanWaterbodies, Option.map_eq_none']
      exact List.find?_eq_none.mpr fun f' hf => by simp [hwb fs' f' h hf]
  have hWW : scanWaterways g (lat, lng) layers.waterways = none := by
    cases h : layers.waterways with
    | none => simp [scanWaterways]
    | some fs' =>
      simp only [scanWaterways, Option.map_eq_none']
      exact List.find?_eq_none.mpr fun f' hf => by simp [hww fs' f' h hf]
  have hVL : scanVulnerable g (lat, lng) layers.vulnerableLocalities = none := by
    cases h : layers.vulnerableLocalities with
    | none => simp [scanVulnerable]
    | some fs' =>
      simp only [scanVulnerable, Option.map_eq_none']
      exact List.find?_eq_none.mpr fun f' hf => by simp [hvl fs' f' h hf]
  have hGC : scanGreenCover g (lat, lng) layers.greenCover = none := by
    cases h : layers.greenCover with
    | none => simp [scanGreenCover]
    | some fs' =>
      simp only [scanGreenCover, Option.map_eq_none']
      exact List.find?_eq_none.mpr fun f' hf => by simp [hgc fs' f' h hf]
  have hmain : (checkProtectedZone g lat lng layers).violations =
      [⟨"Channel Proximity", "Drainage Channel",
        if g.pointToLineDistance (lat, lng) f < 50 then "HIGH" else "MEDIUM",
        some (toString (jsRound (g.pointToLineDistance (lat, lng) f)) ++ "m")⟩] := by
    simp [checkProtectedZone, scanChannels, hch, hfind, hW, hWW, hVL, hGC]
  refine ⟨hmain, fun h40 => ?_, fun h70 => ?_⟩
  · rw [hmain, h40]
    have hfl : jsRound (40 : ℚ) = 40 := by
      rw [jsRound, Int.floor_eq_iff]; norm_num
    rw [hfl]
    norm_num
    decide
  · rw [hmain, h70]
    have hfl : jsRound (70 : ℚ) = 70 := by
      rw [jsRound, Int.floor_eq_iff]; norm_num
    rw [hfl]
    norm_num
    decide

/-- Witness for C3: a single channel at 40 m and no other layer yields one
HIGH violation labeled 40m. -/
theorem checkProtectedZone_channel_proximity_witness :
    (checkProtectedZone oracleChannel40 0 0 layersChannelOnly).violations =
      [⟨"Channel Proximity", "Drainage Channel", "HIGH", some "40m"⟩] :=
  (checkProtectedZone_channel_proximity oracleChannel40 0 0 layersChannelOnly [⟨none⟩] ⟨none⟩
    rfl (by decide)
    (fun fs' f' h1 _ => by simp [layersChannelOnly] at h1)
    (fun fs' f' h1 _ => by simp [layersChannelOnly] at h1)
    (fun fs' f' h1 _ => by simp [layersChannelOnly] at h1)
    (fun fs' f' h1 _ => by simp [layersChannelOnly] at h1)).2.1 rfl

theorem find?_eq_head?_filter {α : Type} (p : α → Bool) :
    ∀ l : List α, l.find? p = (l.filter p).head? := by
  intro l
  induction l with
  | nil => rfl
  | cons a l ih =>
    cases h : p a
    · rw [List.find?_cons, List.filter_cons, h]
      simp only [cond_false]
      exact ih
    · rw [List.find?_cons, List.filter_cons, h]
      simp

theorem find?_rect_cons (lat lng : ℚ) (a : String × DistrictRect)
    (l : List (String × DistrictRect)) :
    List.find? (fun rl => decide (inRect rl.2 lat lng)) (a :: l) =
      if inRect a.2 lat lng then some a
      else List.find? (fun rl => decide (inRect rl.2 lat lng)) l := by
  by_cases h : inRect a.2 lat lng <;> simp [List.find?_cons, h]

/-- C9 (amended): the district lookup is first-match-wins over the fixed list
of rectangle rules; a point contained in exactly one rule's rectangle gets
that district's label and a point outside all rectangles gets Unknown. The
rectangles are NOT pairwise disjoint (see the counterexample), so the result
is only defined by the rule order. -/
theorem getDistrict_first_match (lat lng : ℚ) :
    getDistrict lat lng = firstMatchDistrict districtRules lat lng ∧
    (∀ name rc, districtRules.filter (fun rl => decide (inRect rl.2 lat lng)) = [(name, rc)] →
      getDistrict lat lng = name) ∧
    ((∀ rl ∈ districtRules, ¬ inRect rl.2 lat lng) → getDistrict lat lng = "Unknown") := by
  have hmain : getDistrict lat lng = firstMatchDistrict districtRules lat lng := by
    unfold getDistrict firstMatchDistrict districtRules
    split_ifs with h1 h2 h3 h4 h5 <;>
      simp_all [List.find?_cons, inRect, ← Bool.decide_and]
  refine ⟨hmain, fun name rc hf => ?_, fun hnone => ?_⟩
  · have h1 : districtRules.find? (fun rl => decide (inRect rl.2 lat lng)) =
        some (name, rc) := by
      rw [find?_eq_head?_filter, hf]
      rfl
    rw [hmain, firstMatchDistrict, h1]
    rfl
  · have h1 : districtRules.find? (fun rl => decide (inRect rl.2 lat lng)) = none :=
      List.find?_eq_none.mpr fun x hx => by simp [hnone x hx]
    rw [hmain, firstMatchDistrict, h1]
    rfl

/-- Witness for C9: the point (17.45, 78.7) lies in exactly one rectangle
(Rangareddy) and the lookup returns that label. -/
theorem getDistrict_first_match_witness :
    getDistrict 17.45 78.7 = "Rangareddy" :=
  (getDistrict_first_match 17.45 78.7).2.1 "Rangareddy" ⟨17.2, 17.6, 78.2, 78.8⟩
    (by norm_num [districtRules, inRect, List.filter_cons])

/-- C9 counterexample: the point (17.4, 78.5) lies in BOTH the Hyderabad and
the Rangareddy rectangles, so the rules are not non-overlapping, and
first-match over the reversed rule list gives a different answer, so the
result is not independent of rule order. -/
theorem getDistrict_rules_overlap :
    inRect ⟨17.3, 17.5, 78.4, 78.6⟩ 17.4 78.5 ∧
    inRect ⟨17.2, 17.6, 78.2, 78.8⟩ 17.4 78.5 ∧
    (districtRules.filter fun rl => decide (inRect rl.2 17.4 78.5)).length = 2 ∧
    firstMatchDistrict districtRules 17.4 78.5 = "Hyderabad" ∧
    firstMatchDistrict districtRules.reverse 17.4 78.5 = "Rangareddy" := by
  norm_num [districtRules, firstMatchDistrict, inRect, List.filter_cons, List.find?_cons]

/-- C10: malformed input (including the JS-falsy 0 components) or a
coordinate outside lat 17-18 / lng 77.5-79 makes analyzeSite fail validation
with an error, uniformly in the downstream pipeline, so no layer loading,
imagery fetch, inference or persistence runs. -/
theorem analyzeSite_rejects_invalid {α : Type} (pipeline : ℚ → ℚ → α)
    (parsed : Option (ℚ × ℚ))
    (hbad : parsed = none ∨ ∃ la ln, parsed = some (la, ln) ∧
      (la < 17 ∨ 18 < la ∨ ln < 77.5 ∨ 79 < ln)) :
    ∃ msg, analyzeSite pipeline parsed = .error msg ∧
      ∀ pl : ℚ → ℚ → α, analyzeSite pl parsed = .error msg := by
  rcases hbad with rfl | ⟨la, ln, rfl, hout⟩
  · exact ⟨_, rfl, fun pl => rfl⟩
  · by_cases h0 : la = 0 ∨ ln = 0
    · refine ⟨"Invalid coordinates format. Use: lat,lng", ?_, fun pl => ?_⟩ <;>
        simp [analyzeSite, analyzeSiteValidate, Except.map, h0]
    · have hreg : isWithinHyderabadRegion la ln = false := by
        simp only [isWithinHyderabadRegion, decide_eq_false_iff_not]
        rintro ⟨h1, h2, h3, h4⟩
        rcases hout with h | h | h | h <;> linarith
      refine ⟨"Coordinates must be within Hyderabad region", ?_, fun pl => ?_⟩ <;>
        simp [analyzeSite, analyzeSiteValidate, Except.map, h0, hreg]

/-- Witness for C10: latitude 10 is south of the service region, so analysis
is rejected regardless of the downstream pipeline. -/
theorem analyzeSite_rejects_invalid_witness :
    ∃ msg, analyzeSite (fun _ _ => (0 : ℕ)) (some (10, 78)) = .error msg ∧
      ∀ pl : ℚ → ℚ → ℕ, analyzeSite pl (some (10, 78)) = .error msg :=
  analyzeSite_rejects_invalid (fun _ _ => 0) (some (10, 78))
    (.inr ⟨10, 78, rfl, .inl (by norm_num)⟩)

theorem maskThreshold_eq : maskThreshold = 1 / 2 := by
  norm_num [maskThreshold, Rat.mkRat_eq_div]

theorem foldl_fixed {α σ : Type} (f : σ → α → σ) (s : σ) (h : ∀ a, f s a = s) :
    ∀ l : List α, l.foldl f s = s := by
  intro l
  induction l with
  | nil => rfl
  | cons a l ih => rw [List.foldl_cons, h a]; exact ih

/-- C7: when change regions are supplied, the building stage returns exactly
the detections whose bounding-box center lies inside at least one region's
bounding box; when none are supplied, all detections pass through. -/
theorem detectBuildings_filter_spec (buildings : List Building)
    (changeRegions : List Region) :
    (changeRegions = [] → detectBuildingsWithMaskRCNN buildings changeRegions = buildings) ∧
    (changeRegions ≠ [] → ∀ b : Building,
      b ∈ detectBuildingsWithMaskRCNN buildings changeRegions ↔
        b ∈ buildings ∧ ∃ rg ∈ changeRegions,
          (rg.bbox.x : ℚ) ≤ b.bbox.x + b.bbox.width / 2 ∧
          b.bbox.x + b.bbox.width / 2 ≤ (rg.bbox.x2 : ℚ) ∧
          (rg.bbox.y : ℚ) ≤ b.bbox.y + b.bbox.height / 2 ∧
          b.bbox.y + b.bbox.height / 2 ≤ (rg.bbox.y2 : ℚ)) := by
  constructor
  · rintro rfl
    simp [detectBuildingsWithMaskRCNN]
  · intro hne b
    have hlen : 0 < changeRegions.length := List.length_pos.mpr hne
    simp [detectBuildingsWithMaskRCNN, hlen, filterBuildingsInChangeRegions,
      List.mem_filter, List.any_eq_true]

/-- Witness for C7 at a concrete building and region. -/
theorem detectBuildings_filter_spec_witness :
    detectBuildingsWithMaskRCNN [buildingZero] [] = [buildingZero] ∧
    (buildingZero ∈ detectBuildingsWithMaskRCNN [buildingZero] [regionZero] ↔
      buildingZero ∈ [buildingZero] ∧ ∃ rg ∈ [regionZero],
        (rg.bbox.x : ℚ) ≤ buildingZero.bbox.x + buildingZero.bbox.width / 2 ∧
        buildingZero.bbox.x + buildingZero.bbox.width / 2 ≤ (rg.bbox.x2 : ℚ) ∧
        (rg.bbox.y : ℚ) ≤ buildingZero.bbox.y + buildingZero.bbox.height / 2 ∧
        buildingZero.bbox.y + buildingZero.bbox.height / 2 ≤ (rg.bbox.y2 : ℚ)) :=
  ⟨(detectBuildings_filter_spec [buildingZero] []).1 rfl,
   (detectBuildings_filter_spec [buildingZero] [regionZero]).2 (by simp) buildingZero⟩

/-- C8: every change record of the main (non-fallback) path has area
`max (bbox.width * bbox.height * 0.5) 50`, hence at least the 50 square-meter
floor and positive, for every building box including degenerate ones. -/
theorem detectChanges_area_floor (coords : Coord) (r : ℕ → ℚ) (m : ChangeMask)
    (detector : List Region → Except Unit (List Building)) (buildings : List Building)
    (hne : m.regions ≠ []) (hdet : detector m.regions = .ok buildings) :
    ∀ c ∈ (detectChanges (.ok (some m)) detector coords r).changes,
      ∃ b ∈ buildings, c.area = max (b.bbox.width * b.bbox.height * (1 / 2)) 50 ∧
        50 ≤ c.area ∧ 0 < c.area := by
  have hlen : ¬ m.regions.length = 0 := by simpa using hne
  have hres : (detectChanges (.ok (some m)) detector coords r).changes =
      buildings.map (buildingToChange coords) := by
    simp [detectChanges, detectChangesML, hlen, hdet]
  intro c hc
  rw [hres, List.mem_map] at hc
  obtain ⟨b, hb, rfl⟩ := hc
  refine ⟨b, hb, rfl, le_max_right _ _, lt_of_lt_of_le ?_ (le_max_right _ _)⟩
  norm_num [buildingToChange]

/-- Witness for C8 at a degenerate zero-size building box (area clamps
to 50). -/
theorem detectChanges_area_floor_witness :
    ∃ b ∈ [buildingZero],
      (buildingToChange ⟨0, 0⟩ buildingZero).area =
        max (b.bbox.width * b.bbox.height * (1 / 2)) 50 ∧
      50 ≤ (buildingToChange ⟨0, 0⟩ buildingZero).area ∧
      0 < (buildingToChange ⟨0, 0⟩ buildingZero).area :=
  detectChanges_area_floor ⟨0, 0⟩ streamSeven maskOneRegion (fun _ => .ok [buildingZero])
    [buildingZero] (by simp [maskOneRegion]) rfl (buildingToChange ⟨0, 0⟩ buildingZero)
    (by simp [detectChanges, detectChangesML, maskOneRegion])

/-- C4: a change-model result with zero extracted regions (in particular an
all-below-threshold mask, for which the region extractor returns no regions)
makes the pipeline exit early with hasChange false, no changes and the fixed
confidence 0.95, without ever invoking the building-detection stage (the
result does not depend on the detector at all). -/
theorem detectChanges_no_regions (coords : Coord) (r : ℕ → ℚ)
    (mask? : Option ChangeMask) (detector : List Region → Except Unit (List Building))
    (hempty : mask? = none ∨ ∃ m, mask? = some m ∧ m.regions = []) :
    detectChanges (.ok mask?) detector coords r =
      ⟨false, 19 / 20, [], "UNet + Mask R-CNN"⟩ ∧
    (∀ d₁ d₂ : List Region → Except Unit (List Building),
      detectChanges (.ok mask?) d₁ coords r = detectChanges (.ok mask?) d₂ coords r) ∧
    (∀ (maskData : List ℚ) (w h : ℕ), (∀ q ∈ maskData, q < 1 / 2) →
      findChangeRegions maskData w h = []) := by
  have hconst : ∀ d : List Region → Except Unit (List Building),
      detectChanges (.ok mask?) d coords r = ⟨false, 19 / 20, [], "UNet + Mask R-CNN"⟩ := by
    intro d
    rcases hempty with rfl | ⟨m, rfl, hreg⟩
    · rfl
    · simp [detectChanges, detectChangesML, hreg]
  refine ⟨hconst detector, fun d₁ d₂ => (hconst d₁).trans (hconst d₂).symm, ?_⟩
  intro maskData w h hlt
  unfold findChangeRegions
  have hstep : ∀ xy, regionStep maskData w h ([], []) xy = ([], []) := by
    intro xy
    have hx : ¬ ((xy.2 : ℤ) * w + xy.1 < (maskData.length : ℤ) ∧
        maskThreshold < maskGet maskData ((xy.2 : ℤ) * w + xy.1) ∧
        (xy.2 : ℤ) * w + xy.1 ∉ ([] : List ℤ)) := by
      rintro ⟨hidx, hgt, -⟩
      have h0 : (0 : ℤ) ≤ (xy.2 : ℤ) * w + xy.1 := by positivity
      have h1 : ((xy.2 : ℤ) * w + xy.1).toNat < maskData.length := by omega
      have h2 : maskGet maskData ((xy.2 : ℤ) * w + xy.1) =
          maskData[((xy.2 : ℤ) * w + xy.1).toNat] := by
        simp [maskGet, List.getD_eq_getElem?_getD, List.getElem?_eq_getElem h1]
      have h3 := hlt _ (h2 ▸ List.getElem_mem h1)
      rw [maskThreshold_eq] at hgt
      rw [h2] at hgt
      linarith
    simp only [regionStep, if_neg hx]
  rw [foldl_fixed _ _ hstep]
  rfl

/-- Witness for C4: a null change mask exits early with the fixed result. -/
theorem detectChanges_no_regions_witness :
    detectChanges (.ok none) (fun _ => .ok []) ⟨0, 0⟩ streamSeven =
      ⟨false, 19 / 20, [], "UNet + Mask R-CNN"⟩ :=
  (detectChanges_no_regions ⟨0, 0⟩ streamSeven none (fun _ => .ok []) (.inl rfl)).1

/-- C5: an exception anywhere in the ML detection path (UNet inference, or
the building stage on a nonempty region list) is not propagated: the result
is the fallback, which reports either no change with an empty change list, or
1 to 3 synthetic changes, each within 0.005 degrees of the query coordinate
in both axes and labeled Fallback, distinct from the ML method label. -/
theorem detectChanges_fallback_safe (coords : Coord) (r : ℕ → ℚ)
    (hr : ∀ n, 0 ≤ r n ∧ r n < 1)
    (unet : Except Unit (Option ChangeMask))
    (detector : List Region → Except Unit (List Building))
    (herr : unet = .error () ∨ ∃ m, unet = .ok (some m) ∧ m.regions ≠ [] ∧
      detector m.regions = .error ()) :
    detectChanges unet detector coords r = fallbackDetection coords r ∧
    ((fallbackDetection coords r).hasChange = false ∧
        (fallbackDetection coords r).changes = [] ∨
      (fallbackDetection coords r).hasChange = true ∧
        1 ≤ (fallbackDetection coords r).changes.length ∧
        (fallbackDetection coords r).changes.length ≤ 3 ∧
        ∀ c ∈ (fallbackDetection coords r).changes,
          |c.coordinates.lat - coords.lat| ≤ 1 / 200 ∧
          |c.coordinates.lng - coords.lng| ≤ 1 / 200 ∧
          c.detectionMethod = "Fallback" ∧
          c.detectionMethod ≠ "UNet + Mask R-CNN") := by
  constructor
  · rcases herr with rfl | ⟨m, rfl, hreg, hdet⟩
    · rfl
    · have hlen : ¬ m.regions.length = 0 := by simpa using hreg
      simp [detectChanges, detectChangesML, hlen, hdet]
  · by_cases hp : r 0 > 3 / 5
    · right
      have hch : (fallbackDetection coords r).changes =
          (List.range ((⌊r 1 * 3⌋).toNat + 1)).map (fallbackChange coords r) := by
        simp [fallbackDetection, hp]
      have hfloor : (0 : ℤ) ≤ ⌊r 1 * 3⌋ ∧ ⌊r 1 * 3⌋ < 3 := by
        obtain ⟨h0, h1⟩ := hr 1
        constructor
        · exact Int.floor_nonneg.mpr (by positivity)
        · rw [Int.floor_lt]
          push_cast
          linarith
      refine ⟨by simp [fallbackDetection, hp], ?_, ?_, ?_⟩
      · rw [hch]
        simp
      · rw [hch]
        simp only [List.length_map, List.length_range]
        omega
      · intro c hc
        rw [hch, List.mem_map] at hc
        obtain ⟨i, -, rfl⟩ := hc
        obtain ⟨ha1, hb1⟩ := hr (2 + 6 * i)
        obtain ⟨ha2, hb2⟩ := hr (2 + 6 * i + 1)
        refine ⟨?_, ?_, rfl, by simp only [fallbackChange]; decide⟩
        · have hlat : (fallbackChange coords r i).coordinates.lat - coords.lat =
              (r (2 + 6 * i) - 1 / 2) * (1 / 100) := by
            simp only [fallbackChange]
            ring
          rw [hlat, abs_le]
          constructor <;> linarith
        · have hlng : (fallbackChange coords r i).coordinates.lng - coords.lng =
              (r (2 + 6 * i + 1) - 1 / 2) * (1 / 100) := by
            simp only [fallbackChange]
            ring
          rw [hlng, abs_le]
          constructor <;> linarith
    · left
      constructor <;> simp [fallbackDetection, hp]

/-- Witness for C5: a UNet-stage exception with the constant stream 7/10. -/
theorem detectChanges_fallback_safe_witness :
    detectChanges (.error ()) (fun _ => .ok []) ⟨0, 0⟩ streamSeven =
      fallbackDetection ⟨0, 0⟩ streamSeven :=
  (detectChanges_fallback_safe ⟨0, 0⟩ streamSeven
    (fun _ => by norm_num [streamSeven]) (.error ()) (fun _ => .ok []) (.inl rfl)).1

theorem tail_append_single {α : Type} (l : List α) (a : α) (h : l ≠ []) :
    (l ++ [a]).tail = l.tail ++ [a] := by
  cases l with
  | nil => exact absurd rfl h
  | cons b l => simp

theorem inBB_grow {bb : RegionBBox} {p : ℤ × ℤ} (x y : ℤ) (h : inBB bb p) :
    inBB ⟨min bb.x x, min bb.y y, max bb.x2 x, max bb.y2 y⟩ p :=
  ⟨(min_le_left _ _).trans h.1, h.2.1.trans (le_max_left _ _),
   (min_le_left _ _).trans h.2.2.1, h.2.2.2.trans (le_max_left _ _)⟩

theorem inBB_new (bb : RegionBBox) (x y : ℤ) :
    inBB ⟨min bb.x x, min bb.y y, max bb.x2 x, max bb.y2 y⟩ (x, y) :=
  ⟨min_le_right _ _, le_max_right _ _, min_le_right _ _, le_max_right _ _⟩

theorem floodFill_invariant (maskData : List ℚ) (width height sr : ℤ) :
    ∀ (fuel : ℕ) (visited : List ℤ) (stack : List (ℤ × ℤ)) (region : Region),
      ffPre width height visited region →
      ffPost width height region
        (floodFill maskData width height sr fuel visited stack region) := by
  intro fuel
  induction fuel with
  | zero =>
    intro visited stack region hpre
    obtain ⟨h1, h2, h3, h4, h5⟩ := hpre
    rw [show floodFill maskData width height sr 0 visited stack region =
      (visited, region) from rfl]
    exact ⟨rfl, ⟨[], by simp⟩, h2, h3, h4, h5⟩
  | succ fuel ih =>
    intro visited stack region hpre
    obtain ⟨h1, h2, h3, h4, h5⟩ := hpre
    match stack with
    | [] =>
      rw [show floodFill maskData width height sr (fuel + 1) visited [] region =
        (visited, region) from by simp [floodFill]]
      exact ⟨rfl, ⟨[], by simp⟩, h2, h3, h4, h5⟩
    | (x, y) :: rest =>
      by_cases hcap : maxPixels ≤ region.pixels.length
      · rw [show floodFill maskData width height sr (fuel + 1) visited ((x, y) :: rest) region =
          (visited, region) from by simp [floodFill, hcap]]
        exact ⟨rfl, ⟨[], by simp⟩, h2, h3, h4, h5⟩
      · by_cases hskip : x < 0 ∨ width ≤ x ∨ y < 0 ∨ height ≤ y ∨
            (maskData.length : ℤ) ≤ y * width + x ∨ y * width + x ∈ visited ∨
            maskGet maskData (y * width + x) < maskThreshold
        · rw [show floodFill maskData width height sr (fuel + 1) visited ((x, y) :: rest) region =
            floodFill maskData width height sr fuel visited rest region from by
              simp [floodFill, hcap, hskip]]
          exact ih visited rest region ⟨h1, h2, h3, h4, h5⟩
        · push_neg at hskip
          obtain ⟨hx0, hxw, hy0, hyh, hidx, hvis, hval⟩ := hskip
          rw [show floodFill maskData width height sr (fuel + 1) visited ((x, y) :: rest) region =
            floodFill maskData width height sr fuel ((y * width + x) :: visited)
              ((x, y - sr) :: (x, y + sr) :: (x - sr, y) :: (x + sr, y) :: rest)
              ⟨region.id, region.pixels ++ [(x, y)],
               ⟨min region.bbox.x x, min region.bbox.y y,
                max region.bbox.x2 x, max region.bbox.y2 y⟩⟩ from by
              rw [floodFill]
              rw [if_neg hcap,
                if_neg (by push_neg; exact ⟨hx0, hxw, hy0, hyh, hidx, hvis, hval⟩)]]
          have hpre' : ffPre width height ((y * width + x) :: visited)
              ⟨region.id, region.pixels ++ [(x, y)],
               ⟨min region.bbox.x x, min region.bbox.y y,
                max region.bbox.x2 x, max region.bbox.y2 y⟩⟩ := by
            refine ⟨by simp, by simp; omega, ?_, ?_, ?_⟩
            · intro p hp
              rcases List.mem_append.mp hp with hp | hp
              · exact inBB_grow x y (h3 p hp)
              · rw [List.mem_singleton.mp hp]
                exact inBB_new region.bbox x y
            · show ((region.pixels ++ [(x, y)]).tail).Nodup
              rw [tail_append_single _ _ h1, List.nodup_append]
              refine ⟨h4, List.nodup_singleton _, ?_⟩
              intro p hp hpmem
              rw [List.mem_singleton.mp hpmem] at hp
              exact hvis ((h5 _ hp).2)
            · show ∀ p ∈ (region.pixels ++ [(x, y)]).tail, _
              rw [tail_append_single _ _ h1]
              intro p hp
              rcases List.mem_append.mp hp with hp | hp
              · exact ⟨(h5 p hp).1, List.mem_cons_of_mem _ (h5 p hp).2⟩
              · rw [List.mem_singleton.mp hp]
                exact ⟨⟨hx0, hxw, hy0, hyh⟩, List.mem_cons_self _ _⟩
          obtain ⟨g0, ⟨added, hadded⟩, g2, g3, g4, g5⟩ := ih _ _ _ hpre'
          refine ⟨g0, ⟨(x, y) :: added, ?_⟩, g2, g3, g4, g5⟩
          rw [hadded]
          simp

theorem floodFill_fuel_stable (maskData : List ℚ) (width height sr : ℤ) :
    ∀ (fuel : ℕ) (visited : List ℤ) (stack : List (ℤ × ℤ)) (region : Region),
      stack.length + 4 * (maxPixels - region.pixels.length) ≤ fuel →
      floodFill maskData width height sr (fuel + 1) visited stack region =
        floodFill maskData width height sr fuel visited stack region := by
  intro fuel
  induction fuel with
  | zero =>
    intro visited stack region h
    have hs : stack = [] := by
      cases stack with
      | nil => rfl
      | cons a l =>
        exfalso
        simp only [List.length_cons] at h
        omega
    subst hs
    simp [floodFill]
  | succ fuel ih =>
    intro visited stack region h
    match stack with
    | [] => simp [floodFill]
    | (x, y) :: rest =>
      by_cases hcap : maxPixels ≤ region.pixels.length
      · simp [floodFill, hcap]
      · by_cases hskip : x < 0 ∨ width ≤ x ∨ y < 0 ∨ height ≤ y ∨
            (maskData.length : ℤ) ≤ y * width + x ∨ y * width + x ∈ visited ∨
            maskGet maskData (y * width + x) < maskThreshold
        · rw [show floodFill maskData width height sr (fuel + 1 + 1) visited
              ((x, y) :: rest) region =
              floodFill maskData width height sr (fuel + 1) visited rest region from by
            simp [floodFill, hcap, hskip]]
          rw [show floodFill maskData width height sr (fuel + 1) visited
              ((x, y) :: rest) region =
              floodFill maskData width height sr fuel visited rest region from by
            simp [floodFill, hcap, hskip]]
          apply ih
          simp only [List.length_cons] at h
          omega
        · rw [show floodFill maskData width height sr (fuel + 1 + 1) visited
              ((x, y) :: rest) region =
              floodFill maskData width height sr (fuel + 1) ((y * width + x) :: visited)
                ((x, y - sr) :: (x, y + sr) :: (x - sr, y) :: (x + sr, y) :: rest)
                ⟨region.id, region.pixels ++ [(x, y)],
                 ⟨min region.bbox.x x, min region.bbox.y y,
                  max region.bbox.x2 x, max region.bbox.y2 y⟩⟩ from by
            rw [floodFill, if_neg hcap, if_neg hskip]]
          rw [show floodFill maskData width height sr (fuel + 1) visited
              ((x, y) :: rest) region =
              floodFill maskData width height sr fuel ((y * width + x) :: visited)
                ((x, y - sr) :: (x, y + sr) :: (x - sr, y) :: (x + sr, y) :: rest)
                ⟨region.id, region.pixels ++ [(x, y)],
                 ⟨min region.bbox.x x, min region.bbox.y y,
                  max region.bbox.x2 x, max region.bbox.y2 y⟩⟩ from by
            rw [floodFill, if_neg hcap, if_neg hskip]]
          apply ih
          simp only [List.length_cons, List.length_append, List.length_singleton]
          have hlt : region.pixels.length < maxPixels := not_le.mp hcap
          simp only [List.length_cons] at h
          omega

theorem seedFill_post (maskData : List ℚ) (width height : ℕ) (visited : List ℤ)
    (rid : ℕ) (x y : ℤ)
    (hx0 : 0 ≤ x) (hxw : x < width) (hy0 : 0 ≤ y) (hyh : y < height)
    (hidx : y * width + x < (maskData.length : ℤ))
    (hval : maskThreshold < maskGet maskData (y * width + x))
    (hvis : y * width + x ∉ visited) :
    (seedFill maskData width height visited rid x y).2.id = rid ∧
    (∃ added, (seedFill maskData width height visited rid x y).2.pixels =
      (x, y) :: (x, y) :: added ∧ ((x, y) :: added).Nodup) ∧
    (seedFill maskData width height visited rid x y).2.pixels.length ≤ maxPixels ∧
    (∀ p ∈ (seedFill maskData width height visited rid x y).2.pixels,
      inBB (seedFill maskData width height visited rid x y).2.bbox p) := by
  unfold seedFill
  rw [show floodFillFuel = (4 * maxPixels + 1) + 1 from rfl]
  rw [show floodFill maskData width height (sampleStride : ℤ) ((4 * maxPixels + 1) + 1)
        visited [(x, y)] ⟨rid, [(x, y)], ⟨x, y, x, y⟩⟩ =
      floodFill maskData width height (sampleStride : ℤ) (4 * maxPixels + 1)
        ((y * width + x) :: visited)
        [(x, y - sampleStride), (x, y + sampleStride), (x - sampleStride, y),
          (x + sampleStride, y)]
        ⟨rid, [(x, y), (x, y)], ⟨x, y, x, y⟩⟩ from by
    rw [floodFill]
    rw [if_neg (by norm_num [maxPixels]),
      if_neg (by push_neg; exact ⟨hx0, hxw, hy0, hyh, hidx, hvis, hval.le⟩)]
    norm_num]
  have hpre : ffPre width height ((y * width + x) :: visited)
      ⟨rid, [(x, y), (x, y)], ⟨x, y, x, y⟩⟩ := by
    refine ⟨by simp, by norm_num [maxPixels], ?_, ?_, ?_⟩
    · intro p hp
      simp only [List.mem_cons, List.not_mem_nil, or_false] at hp
      rcases hp with rfl | rfl <;>
        exact ⟨le_refl x, le_refl x, le_refl y, le_refl y⟩
    · simp
    · intro p hp
      simp only [List.tail_cons, List.mem_singleton] at hp
      subst hp
      exact ⟨⟨hx0, hxw, hy0, hyh⟩, List.mem_cons_self _ _⟩
  obtain ⟨g0, ⟨added, hadded⟩, g2, g3, g4, g5⟩ :=
    floodFill_invariant maskData width height (sampleStride : ℤ) (4 * maxPixels + 1)
      ((y * width + x) :: visited)
      [(x, y - sampleStride), (x, y + sampleStride), (x - sampleStride, y),
        (x + sampleStride, y)]
      ⟨rid, [(x, y), (x, y)], ⟨x, y, x, y⟩⟩ hpre
  refine ⟨g0, ⟨added, by simpa using hadded, ?_⟩, g2, g3⟩
  have h4' := g4
  rw [hadded] at h4'
  simpa using h4'

theorem regionStep_preserves (maskData : List ℚ) (width height : ℕ)
    (xy : ℕ × ℕ) (hx : xy.1 < width) (hy : xy.2 < height)
    (st : List ℤ × List Region) (hinv : regionsInv st.2) :
    regionsInv (regionStep maskData width height st xy).2 := by
  by_cases hcond : (xy.2 : ℤ) * width + xy.1 < (maskData.length : ℤ) ∧
      maskThreshold < maskGet maskData ((xy.2 : ℤ) * width + xy.1) ∧
      (xy.2 : ℤ) * width + (xy.1 : ℤ) ∉ st.1
  · obtain ⟨hidx, hval, hvis⟩ := hcond
    obtain ⟨g0, ⟨added, hadded, hnd⟩, g2, g3⟩ := seedFill_post maskData width height st.1
      st.2.length xy.1 xy.2 (Int.ofNat_nonneg _) (by exact_mod_cast hx)
      (Int.ofNat_nonneg _) (by exact_mod_cast hy) hidx hval hvis
    have hc : (xy.2 : ℤ) * width + xy.1 < (maskData.length : ℤ) ∧
        maskThreshold < maskGet maskData ((xy.2 : ℤ) * width + xy.1) ∧
        (xy.2 : ℤ) * width + (xy.1 : ℤ) ∉ st.1 := ⟨hidx, hval, hvis⟩
    have heq : regionStep maskData width height st xy =
        (if 10 ≤ (seedFill maskData width height st.1 st.2.length xy.1 xy.2).2.pixels.length
         then ((seedFill maskData width height st.1 st.2.length xy.1 xy.2).1,
           st.2 ++ [(seedFill maskData width height st.1 st.2.length xy.1 xy.2).2])
         else ((seedFill maskData width height st.1 st.2.length xy.1 xy.2).1, st.2)) := by
      simp only [regionStep, if_pos hc]
    rw [heq]
    by_cases hkeep :
        10 ≤ (seedFill maskData width height st.1 st.2.length xy.1 xy.2).2.pixels.length
    · rw [if_pos hkeep]
      constructor
      · intro rg hrg
        rcases List.mem_append.mp hrg with hrg | hrg
        · exact hinv.1 rg hrg
        · rw [List.mem_singleton.mp hrg]
          exact ⟨hkeep, g2, g3, (xy.1, xy.2), added, hadded, hnd⟩
      · simp only [List.map_append, List.map_cons, List.map_nil, List.length_append,
          List.length_cons, List.length_nil]
        rw [hinv.2, g0, List.range_succ]
    · rw [if_neg hkeep]
      exact hinv
  · have heq : regionStep maskData width height st xy = st := by
      simp only [regionStep, if_neg hcond]
    rw [heq]
    exact hinv

theorem stepRange_lt {limit v : ℕ} (h : v ∈ stepRange limit sampleStride) : v < limit := by
  obtain ⟨i, hi, rfl⟩ := List.mem_map.mp h
  rw [List.mem_range] at hi
  simp only [sampleStride] at hi ⊢
  omega

theorem mem_samplePoints {width height : ℕ} {xy : ℕ × ℕ}
    (h : xy ∈ samplePoints width height) : xy.1 < width ∧ xy.2 < height := by
  unfold samplePoints at h
  rw [List.mem_flatMap] at h
  obtain ⟨y, hy, hxy⟩ := h
  rw [List.mem_map] at hxy
  obtain ⟨x, hx, rfl⟩ := hxy
  exact ⟨stepRange_lt hx, stepRange_lt hy⟩

theorem foldl_inv_mem {α σ : Type} (P : σ → Prop) (f : σ → α → σ) :
    ∀ l : List α, (∀ a ∈ l, ∀ s, P s → P (f s a)) → ∀ s, P s → P (l.foldl f s) := by
  intro l
  induction l with
  | nil => exact fun _ s hs => hs
  | cons a l ih =>
    intro h s hs
    exact ih (fun b hb => h b (List.mem_cons_of_mem _ hb)) _
      (h a (List.mem_cons_self _ _) s hs)

/-- C6 (amended): every region returned by the region extractor is nonempty,
has between 10 and 1000 pixel entries, all inside its bounding box, and the
entries are pairwise distinct EXCEPT that the seed pixel appears twice (the
scan seeds the pixel list and the fill appends the same pixel again); at most
20 regions are returned, with ids numbered 0, 1, ... in acceptance (scan)
order. -/
theorem findChangeRegions_invariants (maskData : List ℚ) (width height : ℕ) :
    (findChangeRegions maskData width height).length ≤ 20 ∧
    (findChangeRegions maskData width height).map Region.id =
      List.range (findChangeRegions maskData width height).length ∧
    ∀ rg ∈ findChangeRegions maskData width height,
      rg.pixels ≠ [] ∧ 10 ≤ rg.pixels.length ∧ rg.pixels.length ≤ 1000 ∧
      (∀ p ∈ rg.pixels, inBB rg.bbox p) ∧
      ∃ s rest, rg.pixels = s :: s :: rest ∧ (s :: rest).Nodup := by
  have hinv : regionsInv ((samplePoints width height).foldl
      (regionStep maskData width height) ([], [])).2 := by
    refine foldl_inv_mem (fun st => regionsInv st.2) (regionStep maskData width height)
      (samplePoints width height) (fun xy hxy st hst => ?_) ([], [])
      (show regionsInv ([] : List Region) from
        ⟨fun rg hrg => absurd hrg (List.not_mem_nil _), rfl⟩)
    exact regionStep_preserves maskData width height xy (mem_samplePoints hxy).1
      (mem_samplePoints hxy).2 st hst
  unfold findChangeRegions
  refine ⟨?_, ?_, ?_⟩
  · rw [List.length_take]
    exact min_le_left _ _
  · rw [List.map_take, hinv.2, List.take_range, List.length_take]
  · intro rg hrg
    obtain ⟨k1, k2, k3, k4⟩ := hinv.1 rg (List.mem_of_mem_take hrg)
    have hne : rg.pixels ≠ [] := by
      intro hnil
      rw [hnil] at k1
      simp at k1
    exact ⟨hne, k1, by simpa [maxPixels] using k2, k3, k4⟩

/-- Witness for C6 on a concrete 40x1 all-ones mask. -/
theorem findChangeRegions_invariants_witness :
    (findChangeRegions (List.replicate 40 1) 40 1).length ≤ 20 :=
  (findChangeRegions_invariants (List.replicate 40 1) 40 1).1

/-- C6 counterexample: on a 40x1 all-ones mask the single extracted region
lists its seed pixel (0, 0) twice, so the pixel entries of a returned region
are NOT distinct coordinates. -/
theorem findChangeRegions_duplicate_seed :
    (findChangeRegions (List.replicate 40 1) 40 1).map Region.pixels =
      [[(0, 0), (0, 0), (4, 0), (8, 0), (12, 0), (16, 0), (20, 0), (24, 0),
        (28, 0), (32, 0), (36, 0)]] ∧
    ¬ ∀ rg ∈ findChangeRegions (List.replicate 40 1) 40 1, rg.pixels.Nodup := by
  constructor
  · decide
  · decide
